import Mathlib

/-!
Verification of the substack_monitor worker service (src/app.py).

The embedding models the module as pure functions over explicit state:
the global variables `last_processed`, `worker_active`, `worker_thread`
and `ping_active` become fields of `AppState`; the external collaborators
(HTTP fetches, the Gemini call, the Postmark send) become oracle values
describing what each call would do, and the helper functions translate
how app.py reacts to those behaviors; the `worker_process` loop becomes a
fold over a schedule of flag observations and per-cycle oracles.
-/

namespace SubstackMonitor

/-- Python truthiness of an optional string: `not x` holds when `x` is
`None` or the empty string. -/
def falsy : Option String → Bool
  | none => true
  | some s => s.isEmpty

/-- Behavior of one `requests`-backed helper call in app.py: a returned
value, a `requests.exceptions.RequestException` (caught inside the
helper, which then returns `None`), or some other exception that escapes
the helper. -/
inductive CallResult (α : Type) where
  | ok (a : α)
  | reqError (msg : String)
  | raised (msg : String)
deriving DecidableEq

/-- `get_latest_substack_post_url` (app.py lines 56-73): returns the href
of the first `sitemap-link` anchor, `None` when the selector misses, and
`None` on `RequestException` (caught and logged); any other exception
escapes to the caller. The `CallResult` input abstracts what the HTTP
request and parse did. -/
def get_latest_substack_post_url : CallResult (Option String) → Except String (Option String)
  | .ok r => .ok r
  | .reqError _ => .ok none
  | .raised m => .error m

/-- `extract_text_from_url` (app.py lines 75-92): returns the joined
paragraph text of the `body` div, `None` when the div is missing, `None`
on `RequestException`; any other exception escapes. -/
def extract_text_from_url : CallResult (Option String) → Except String (Option String)
  | .ok r => .ok r
  | .reqError _ => .ok none
  | .raised m => .error m

/-- The fields of a Gemini response consulted by app.py:
`prompt_feedback.block_reason` (with `none` standing for an absent
`prompt_feedback`) and `text`. -/
structure GeminiResponse where
  block_reason : Option String
  text : String
deriving DecidableEq

/-- Truthiness of `response.prompt_feedback and
response.prompt_feedback.block_reason` (app.py line 104). -/
def has_block_reason (r : GeminiResponse) : Bool :=
  match r.block_reason with
  | some s => !s.isEmpty
  | none => false

/-- Python str.strip: drop leading and trailing whitespace, modelled over
the character list of the string. -/
def pyStrip (s : String) : String :=
  ⟨((s.data.dropWhile Char.isWhitespace).reverse.dropWhile Char.isWhitespace).reverse⟩

/-- `summarize_text` (app.py lines 94-112): `None` when the model call
raises (every exception is caught inside) or when the prompt feedback
carries a block reason; otherwise the stripped response text. -/
def summarize_text : Except String GeminiResponse → Option String
  | .error _ => none
  | .ok r => if has_block_reason r then none else some (pyStrip r.text)

/-- Whether the summarization oracle is the blocked signal: a response
whose `prompt_feedback.block_reason` is truthy. -/
def geminiBlocked : Except String GeminiResponse → Bool
  | .error _ => false
  | .ok r => has_block_reason r

/-- `send_simple_message` (app.py lines 114-128): returns the Postmark
result on success and `None` when any exception is raised inside (the
whole body is wrapped in try/except). -/
def send_simple_message : Except String String → Option String
  | .error _ => none
  | .ok r => some r

deriving instance DecidableEq for Except

/-- The external world as seen by one iteration of the worker loop: what
each collaborator call would do if made during that cycle. -/
structure CycleEnv where
  fetch : CallResult (Option String)
  extraction : CallResult (Option String)
  gemini : Except String GeminiResponse
  postmark : Except String String
deriving DecidableEq

/-- Classification of one poll cycle, following the data model of the
specification (`CycleOutcome`), plus a constructor for an exception
reaching the except arm of the loop body. -/
inductive CycleOutcome where
  | noNewItem
  | delivered (locator : String)
  | sourceFetchFailed
  | extractFailed
  | summarizeFailed
  | summarizeBlocked
  | deliveryFailed (locator : String)
  | workerError (msg : String)
deriving DecidableEq

/-- Observable effects of one iteration of the worker loop body:
the outcome, the local `last_processed_url` and global `last_processed`
after the iteration, which downstream helpers were called, how many times
the global marker was written, and whether the iteration ended in
`time.sleep(SLEEP_SECONDS)`. -/
structure CycleResult where
  outcome : CycleOutcome
  last_processed_url : String
  last_processed : String
  extractCalled : Bool
  summarizeCalled : Bool
  sendCalled : Bool
  markerWrites : Nat
  slept : Bool
deriving DecidableEq

/-- One iteration of the `while worker_active` body of `worker_process`
(app.py lines 137-185), given the local `last_processed_url`, the global
`last_processed` marker, and the behavior of the collaborators. The try
arm runs the pipeline; the except arm catches an escaping exception; the
return value of `send_simple_message` is discarded and
`save_last_processed_url` runs right after the send attempt; every path
ends in the inter-cycle sleep. -/
def worker_cycle (lastUrl marker : String) (env : CycleEnv) : CycleResult :=
  match get_latest_substack_post_url env.fetch with
  | .error m =>
      ⟨.workerError m, lastUrl, marker, false, false, false, 0, true⟩
  | .ok none =>
      ⟨.sourceFetchFailed, lastUrl, marker, false, false, false, 0, true⟩
  | .ok (some u) =>
      if u.isEmpty then
        ⟨.sourceFetchFailed, lastUrl, marker, false, false, false, 0, true⟩
      else if u ≠ lastUrl then
        match extract_text_from_url env.extraction with
        | .error m => ⟨.workerError m, lastUrl, marker, true, false, false, 0, true⟩
        | .ok txt =>
            if falsy txt then
              ⟨.extractFailed, lastUrl, marker, true, false, false, 0, true⟩
            else if falsy (summarize_text env.gemini) then
              ⟨if geminiBlocked env.gemini then .summarizeBlocked else .summarizeFailed,
               lastUrl, marker, true, true, false, 0, true⟩
            else
              match send_simple_message env.postmark with
              | some _ => ⟨.delivered u, u, u, true, true, true, 1, true⟩
              | none => ⟨.deliveryFailed u, u, u, true, true, true, 1, true⟩
      else
        ⟨.noNewItem, lastUrl, marker, false, false, false, 0, true⟩

/-- One executed cycle in a worker run: the local and global marker
values at the top of the iteration, and the iteration result. -/
structure TraceEntry where
  preLocal : String
  preMarker : String
  result : CycleResult
deriving DecidableEq

/-- Final state of a worker run: the local variable, the global marker,
and the list of executed cycles. -/
structure WorkerRun where
  last_processed_url : String
  last_processed : String
  trace : List TraceEntry
deriving DecidableEq

/-- The `while worker_active` loop of `worker_process`: each step of the
schedule gives the value of `worker_active` observed at the top-of-loop
check (false once `stop_worker` or shutdown cleared it) together with the
collaborator behaviors for the cycle that would run. The loop exits at
the first check that observes false. -/
def worker_loop : String → String → List (Bool × CycleEnv) → WorkerRun
  | lastUrl, marker, [] => ⟨lastUrl, marker, []⟩
  | lastUrl, marker, (flag, env) :: rest =>
      if flag then
        let r := worker_cycle lastUrl marker env
        let w := worker_loop r.last_processed_url r.last_processed rest
        ⟨w.last_processed_url, w.last_processed, ⟨lastUrl, marker, r⟩ :: w.trace⟩
      else
        ⟨lastUrl, marker, []⟩

/-- `worker_process` (app.py lines 130-185): reads the global marker once
into the local `last_processed_url` via `get_last_processed_url`, then
runs the polling loop. -/
def worker_process (marker0 : String) (steps : List (Bool × CycleEnv)) : WorkerRun :=
  worker_loop marker0 marker0 steps

/-- The module-level mutable state of app.py: `last_processed` (line 38),
`worker_active` (line 39), the number of worker threads ever spawned
(standing for `worker_thread` assignments, line 40), and `ping_active`
(line 41). -/
structure AppState where
  last_processed : String
  worker_active : Bool
  worker_spawns : Nat
  ping_active : Bool
deriving DecidableEq

/-- `get_last_processed_url` (app.py lines 46-49). -/
def get_last_processed_url (s : AppState) : String :=
  s.last_processed

/-- `save_last_processed_url` (app.py lines 51-54). -/
def save_last_processed_url (s : AppState) (url : String) : AppState :=
  { s with last_processed := url }

/-- `start_worker`, the POST /start handler (app.py lines 216-227):
when `worker_active` is false, set it, spawn a worker thread and report
"worker started"; otherwise report "worker already running" and change
nothing. -/
def start_worker (s : AppState) : AppState × String :=
  if !s.worker_active then
    ({ s with worker_active := true, worker_spawns := s.worker_spawns + 1 },
     "worker started")
  else
    (s, "worker already running")

/-- `stop_worker`, the POST /stop handler (app.py lines 229-237): when
`worker_active` is true, clear it and report that the current cycle will
finish; otherwise report "worker not running" and change nothing. -/
def stop_worker (s : AppState) : AppState × String :=
  if s.worker_active then
    ({ s with worker_active := false }, "worker stopping - will finish current cycle")
  else
    (s, "worker not running")

/-- A control-surface call: POST /start or POST /stop. -/
inductive ControlOp where
  | start
  | stop
deriving DecidableEq

/-- State transition of one control-surface call, discarding the response
body. -/
def apply_op (s : AppState) : ControlOp → AppState
  | .start => (start_worker s).1
  | .stop => (stop_worker s).1

/-- The JSON body returned by GET / (app.py lines 203-210). -/
structure IndexResponse where
  status : String
  worker_active : Bool
  ping_active : Bool
  last_processed : String
deriving DecidableEq

/-- `index`, the GET / handler (app.py lines 203-210): reports the fixed
status "running", the two flags, and `last_processed or "None"` - the
marker when it is truthy, the literal string "None" when it is falsy. -/
def index (s : AppState) : IndexResponse :=
  ⟨"running", s.worker_active, s.ping_active,
   if s.last_processed = "" then "None" else s.last_processed⟩

/-- Interleaved execution of two concurrent POST /start handlers. Each
caller executes `start_worker` in two steps that are not atomic together:
first it reads `worker_active` (the `if not worker_active` test), then -
depending on what it saw - it either sets the flag, spawns a thread and
responds "worker started", or responds "worker already running". The
state records the shared flag and spawn count plus each caller's read
flag value and response, `none` meaning that step has not happened yet. -/
structure StartRaceState where
  worker_active : Bool
  worker_spawns : Nat
  aSaw : Option Bool
  bSaw : Option Bool
  aResp : Option String
  bResp : Option String
deriving DecidableEq

/-- Identity of one of the two concurrent POST /start callers. -/
inductive Caller where
  | a
  | b
deriving DecidableEq

/-- Run the next pending step of the given caller: its read of
`worker_active` if it has not read yet, otherwise its commit (set flag,
spawn, respond) based on the value it read; a caller that already
responded does nothing. -/
def race_step (s : StartRaceState) : Caller → StartRaceState
  | .a =>
      match s.aSaw with
      | none => { s with aSaw := some s.worker_active }
      | some saw =>
          match s.aResp with
          | none =>
              if !saw then
                { s with worker_active := true, worker_spawns := s.worker_spawns + 1,
                         aResp := some "worker started" }
              else
                { s with aResp := some "worker already running" }
          | some _ => s
  | .b =>
      match s.bSaw with
      | none => { s with bSaw := some s.worker_active }
      | some saw =>
          match s.bResp with
          | none =>
              if !saw then
                { s with worker_active := true, worker_spawns := s.worker_spawns + 1,
                         bResp := some "worker started" }
              else
                { s with bResp := some "worker already running" }
          | some _ => s

/-- Run a schedule of interleaved caller steps. -/
def race_run (s : StartRaceState) (sched : List Caller) : StartRaceState :=
  sched.foldl race_step s

/-- Initial race state: worker idle, a given number of already-spawned
threads, neither caller has started. -/
def race_init (spawns : Nat) : StartRaceState :=
  ⟨false, spawns, none, none, none, none⟩

/-- Oracle for the C1 counterexample cycle: the fetch finds a new post,
extraction and summarization succeed, and the Postmark send raises (so
`send_simple_message` returns `None`). -/
def envDeliveryFails : CycleEnv :=
  ⟨.ok (some "post-1"), .ok (some "post body"), .ok ⟨none, "a summary"⟩,
   .error "postmark down"⟩

/-- Oracle for the C2 witness cycle: the fetch returns the very locator
already recorded as processed. -/
def envSameLocator : CycleEnv :=
  ⟨.ok (some "post-1"), .ok none, .error "unused", .error "unused"⟩

/-- Oracle for the C3 witness cycle: a new post whose summarization is
blocked by prompt feedback. -/
def envBlocked : CycleEnv :=
  ⟨.ok (some "post-2"), .ok (some "post body"), .ok ⟨some "SAFETY", ""⟩,
   .ok "message-id"⟩

/-- Oracle for the C8 witness cycle: the fetch fails with a network
error. -/
def envFetchDown : CycleEnv :=
  ⟨.reqError "connection refused", .ok none, .error "unused", .error "unused"⟩

lemma worker_cycle_slept (l m : String) (env : CycleEnv) :
    (worker_cycle l m env).slept = true := by
  unfold worker_cycle
  repeat' split
  all_goals rfl

lemma worker_cycle_writes_le_one (l m : String) (env : CycleEnv) :
    (worker_cycle l m env).markerWrites ≤ 1 := by
  unfold worker_cycle
  repeat' split
  all_goals simp

lemma worker_cycle_sync (m : String) (env : CycleEnv) :
    (worker_cycle m m env).last_processed_url = (worker_cycle m m env).last_processed := by
  unfold worker_cycle
  repeat' split
  all_goals rfl

lemma summarize_text_of_blocked (g : Except String GeminiResponse)
    (hb : geminiBlocked g = true) : summarize_text g = none := by
  cases g with
  | error m => rfl
  | ok r =>
      simp only [geminiBlocked] at hb
      simp [summarize_text, hb]

lemma worker_loop_true_length (envs : List CycleEnv) :
    ∀ l m, (worker_loop l m (envs.map fun e => (true, e))).trace.length = envs.length := by
  induction envs with
  | nil => intro l m; rfl
  | cons e rest ih =>
      intro l m
      simp only [List.map_cons, worker_loop, if_true, List.length_cons]
      rw [ih]

lemma worker_loop_stops (envs : List CycleEnv) :
    ∀ l m (envAfter : CycleEnv) (rest : List (Bool × CycleEnv)),
      worker_loop l m ((envs.map fun e => (true, e)) ++ (false, envAfter) :: rest)
        = worker_loop l m (envs.map fun e => (true, e)) := by
  induction envs with
  | nil => intro l m envAfter rest; rfl
  | cons e tl ih =>
      intro l m envAfter rest
      simp only [List.map_cons, List.cons_append, worker_loop, if_true, List.append_eq]
      rw [ih]

lemma worker_loop_trace_shape (steps : List (Bool × CycleEnv)) :
    ∀ l m t, t ∈ (worker_loop l m steps).trace →
      ∃ env, t.result = worker_cycle t.preLocal t.preMarker env := by
  induction steps with
  | nil => intro l m t ht; simp [worker_loop] at ht
  | cons st tl ih =>
      intro l m t ht
      obtain ⟨flag, env⟩ := st
      by_cases hf : flag
      · subst hf
        simp only [worker_loop, if_true, List.mem_cons] at ht
        rcases ht with h | h
        · subst h; exact ⟨env, rfl⟩
        · exact ih _ _ t h
      · simp [worker_loop, hf] at ht

lemma worker_loop_all_slept (steps : List (Bool × CycleEnv)) :
    ∀ l m, ((worker_loop l m steps).trace.all fun t => t.result.slept) = true := by
  induction steps with
  | nil => intro l m; rfl
  | cons st tl ih =>
      intro l m
      obtain ⟨flag, env⟩ := st
      by_cases hf : flag
      · subst hf
        simp only [worker_loop, if_true, List.all_cons, ih, worker_cycle_slept,
          Bool.and_self]
      · simp [worker_loop, hf]

lemma worker_loop_sync_trace (steps : List (Bool × CycleEnv)) :
    ∀ m t, t ∈ (worker_loop m m steps).trace → t.preLocal = t.preMarker := by
  induction steps with
  | nil => intro m t ht; simp [worker_loop] at ht
  | cons st tl ih =>
      intro m t ht
      obtain ⟨flag, env⟩ := st
      by_cases hf : flag
      · subst hf
        simp only [worker_loop, if_true, List.mem_cons] at ht
        rcases ht with h | h
        · subst h; rfl
        · rw [worker_cycle_sync m env] at h
          exact ih _ t h
      · simp [worker_loop, hf] at ht

lemma apply_op_idem (s : AppState) (op : ControlOp) :
    apply_op (apply_op s op) op = apply_op s op := by
  cases op <;> obtain ⟨lp, wa, k, pa⟩ := s <;> cases wa <;>
    simp [apply_op, start_worker, stop_worker]

/-- C2: when the source fetch returns a locator equal to the current
ProcessedMarker, the cycle makes no call to extract_text_from_url,
summarize_text or send_simple_message, its outcome is NoNewItem, and the
marker is unchanged. -/
theorem no_new_item_short_circuit (m : String) (env : CycleEnv)
    (hf : env.fetch = CallResult.ok (some m)) (hm : m.isEmpty = false) :
    worker_cycle m m env =
      ⟨CycleOutcome.noNewItem, m, m, false, false, false, 0, true⟩ := by
  unfold worker_cycle
  rw [hf]
  simp [get_latest_substack_post_url, hm]

/-- Witness for C2 at a concrete cycle. -/
theorem no_new_item_short_circuit_witness :
    envSameLocator.fetch = CallResult.ok (some "post-1") ∧
      ("post-1" : String).isEmpty = false ∧
      worker_cycle "post-1" "post-1" envSameLocator =
        ⟨CycleOutcome.noNewItem, "post-1", "post-1", false, false, false, 0, true⟩ :=
  ⟨rfl, rfl, no_new_item_short_circuit "post-1" envSameLocator rfl rfl⟩

/-- C4: start on a running worker and stop on an idle worker are
exact no-ops returning the reported status strings, and the state reached
by any sequence of start/stop calls is the fold of idempotent
transitions: repeating the last call changes nothing. -/
theorem start_stop_idempotent :
    (∀ (lp : String) (k : Nat) (pa : Bool),
        start_worker ⟨lp, true, k, pa⟩ = (⟨lp, true, k, pa⟩, "worker already running") ∧
        stop_worker ⟨lp, false, k, pa⟩ = (⟨lp, false, k, pa⟩, "worker not running")) ∧
    (∀ (s : AppState) (op : ControlOp), apply_op (apply_op s op) op = apply_op s op) ∧
    (∀ (s : AppState) (ops : List ControlOp) (op : ControlOp),
        List.foldl apply_op s (ops ++ [op, op]) = List.foldl apply_op s (ops ++ [op])) := by
  refine ⟨fun lp k pa => ⟨rfl, rfl⟩, apply_op_idem, fun s ops op => ?_⟩
  simp only [List.foldl_append, List.foldl_cons, List.foldl_nil]
  exact apply_op_idem _ op

/-- C5 counterexample: the interleaving in which both POST /start callers
read worker_active before either writes it ends with two spawned worker
loops and both callers told "worker started". -/
theorem concurrent_start_double_spawn_cex :
    race_run (race_init 0) [Caller.a, Caller.b, Caller.a, Caller.b] =
      ⟨true, 2, some false, some false, some "worker started", some "worker started"⟩ :=
  rfl

/-- C5 amended: when the two start_worker invocations are serialized, the
check-then-set spawns exactly one loop and the loser is told "worker
already running"; the unsynchronized check-then-set guarantees this only
for serialized executions. -/
theorem serialized_start_single_spawn :
    ∀ k : Nat,
      race_run (race_init k) [Caller.a, Caller.a, Caller.b, Caller.b] =
        ⟨true, k + 1, some false, some true, some "worker started",
         some "worker already running"⟩ ∧
      race_run (race_init k) [Caller.b, Caller.b, Caller.a, Caller.a] =
        ⟨true, k + 1, some true, some false, some "worker already running",
         some "worker started"⟩ :=
  fun _ => ⟨rfl, rfl⟩

/-- C6: clearing worker_active while a cycle is in flight never
interrupts it - the run over a schedule whose flag turns false after some
cycles equals the run over just the true-flagged prefix, every
true-checked cycle appears whole in the trace, and every executed cycle
ends with the inter-cycle sleep. -/
theorem stop_waits_for_inflight_cycle :
    ∀ (marker0 : String) (envs : List CycleEnv) (envAfter : CycleEnv)
      (rest : List (Bool × CycleEnv)),
      worker_process marker0 ((envs.map fun e => (true, e)) ++ (false, envAfter) :: rest)
          = worker_process marker0 (envs.map fun e => (true, e)) ∧
      (worker_process marker0 (envs.map fun e => (true, e))).trace.length = envs.length ∧
      ((worker_process marker0
            ((envs.map fun e => (true, e)) ++ (false, envAfter) :: rest)).trace.all
          fun t => t.result.slept) = true := by
  intro marker0 envs envAfter rest
  exact ⟨worker_loop_stops envs _ _ _ _, worker_loop_true_length envs _ _,
    worker_loop_all_slept _ _ _⟩

/-- C7: a cycle never throws - for every behavior of the collaborators,
including escaping exceptions, the cycle body yields a CycleOutcome and
ends in the inter-cycle sleep, and no behavior shortens the loop: as long
as the flag stays true every scheduled cycle executes. -/
theorem worker_cycle_never_throws :
    ∀ (l m : String) (env : CycleEnv) (marker0 : String) (envs : List CycleEnv),
      (worker_cycle l m env).slept = true ∧
      (worker_process marker0 (envs.map fun e => (true, e))).trace.length = envs.length :=
  fun l m env marker0 envs =>
    ⟨worker_cycle_slept l m env, worker_loop_true_length envs marker0 marker0⟩

/-- C8: in every worker run, each cycle compares the fetched locator
against a value equal to the global marker at that cycle's start (the
cached local copy never goes out of sync), and each cycle writes the
global marker at most once. -/
theorem marker_read_write_discipline :
    ∀ (marker0 : String) (steps : List (Bool × CycleEnv)) (t : TraceEntry),
      t ∈ (worker_process marker0 steps).trace →
      t.preLocal = t.preMarker ∧ t.result.markerWrites ≤ 1 := by
  intro marker0 steps t ht
  refine ⟨worker_loop_sync_trace steps marker0 t ht, ?_⟩
  obtain ⟨env, hr⟩ := worker_loop_trace_shape steps marker0 marker0 t ht
  rw [hr]
  exact worker_cycle_writes_le_one _ _ _

/-- Witness for C8 at a concrete one-cycle run. -/
theorem marker_read_write_discipline_witness :
    ((⟨"post-0", "post-0", worker_cycle "post-0" "post-0" envFetchDown⟩ : TraceEntry)
        ∈ (worker_process "post-0" [(true, envFetchDown)]).trace) ∧
      ("post-0" : String) = "post-0" ∧
      (worker_cycle "post-0" "post-0" envFetchDown).markerWrites ≤ 1 := by
  have hmem : (⟨"post-0", "post-0", worker_cycle "post-0" "post-0" envFetchDown⟩ : TraceEntry)
      ∈ (worker_process "post-0" [(true, envFetchDown)]).trace := by decide
  have h := marker_read_write_discipline "post-0" [(true, envFetchDown)] _ hmem
  exact ⟨hmem, h.1, h.2⟩

/-- C9: GET / renders the marker as the literal string "None" exactly
when last_processed is falsy (the empty string, also its initial value),
and renders every non-empty marker verbatim; hence an absent marker and
an empty-string marker are indistinguishable in the response. -/
theorem index_marker_rendering :
    ∀ s : AppState,
      (index s).last_processed
          = (if s.last_processed = "" then "None" else s.last_processed) ∧
      ((index s).last_processed = "None" ↔
        (s.last_processed = "" ∨ s.last_processed = "None")) := by
  intro s
  refine ⟨rfl, ?_⟩
  simp only [index]
  split_ifs with h
  · simp [h]
  · simp [h]

/-- C10: the POST /start and POST /stop handlers never modify
last_processed (or ping_active): in every state, the marker before the
call equals the marker after. -/
theorem start_stop_preserve_marker :
    ∀ s : AppState,
      (start_worker s).1.last_processed = s.last_processed ∧
      (stop_worker s).1.last_processed = s.last_processed ∧
      (start_worker s).1.ping_active = s.ping_active ∧
      (stop_worker s).1.ping_active = s.ping_active := by
  intro s
  obtain ⟨lp, wa, k, pa⟩ := s
  cases wa <;> simp [start_worker, stop_worker]

/-- C1 counterexample: a cycle whose delivery attempt fails (the Postmark
send raises, send_simple_message returns None) still overwrites the
marker - app.py line 174 runs unconditionally after the send attempt. -/
theorem delivery_failure_updates_marker_cex :
    (worker_cycle "" "" envDeliveryFails).outcome = CycleOutcome.deliveryFailed "post-1" ∧
      (worker_cycle "" "" envDeliveryFails).last_processed = "post-1" ∧
      ("post-1" : String) ≠ "" :=
  ⟨rfl, rfl, by decide⟩

/-- C1 amended: starting a cycle with local copy and marker in sync, the
marker changes exactly when the cycle reaches the delivery attempt, i.e.
when the outcome is Delivered or DeliveryFailed; delivery failure does
not prevent the update. -/
theorem marker_changes_iff_send_attempted (m : String) (env : CycleEnv) :
    (worker_cycle m m env).last_processed ≠ m ↔
      ∃ u, (worker_cycle m m env).outcome = CycleOutcome.delivered u ∨
        (worker_cycle m m env).outcome = CycleOutcome.deliveryFailed u := by
  obtain ⟨f, ex, g, p⟩ := env
  rcases f with (_ | u) | mf | mf
  · simp [worker_cycle, get_latest_substack_post_url]
  · rcases ex with txt | me | me
    · rcases p with mp | rp <;>
        · simp only [worker_cycle, get_latest_substack_post_url, extract_text_from_url,
            send_simple_message]
          split_ifs with h1 h2 h3 h4 <;> simp_all [falsy]
    · simp only [worker_cycle, get_latest_substack_post_url, extract_text_from_url]
      split_ifs with h1 h2 <;> simp_all [falsy]
    · simp only [worker_cycle, get_latest_substack_post_url, extract_text_from_url]
      split_ifs with h1 h2 <;> simp_all [falsy]
  · simp [worker_cycle, get_latest_substack_post_url]
  · simp [worker_cycle, get_latest_substack_post_url]

/-- C3: whenever the cycle calls summarize and the Gemini response
carries the blocked signal, the outcome is SummarizeBlocked, no delivery
is attempted, and the marker is unchanged. -/
theorem summarize_blocked_isolated (l m : String) (env : CycleEnv)
    (hb : geminiBlocked env.gemini = true)
    (hc : (worker_cycle l m env).summarizeCalled = true) :
    (worker_cycle l m env).outcome = CycleOutcome.summarizeBlocked ∧
      (worker_cycle l m env).sendCalled = false ∧
      (worker_cycle l m env).last_processed = m := by
  obtain ⟨f, ex, g, p⟩ := env
  have hs : summarize_text g = none := summarize_text_of_blocked g hb
  rcases f with (_ | u) | mf | mf
  · simp [worker_cycle, get_latest_substack_post_url] at hc
  · rcases ex with txt | me | me
    · simp only [worker_cycle, get_latest_substack_post_url, extract_text_from_url]
        at hc ⊢
      split_ifs at hc ⊢ with h1 h2 h3 h4 <;> simp_all [falsy]
    · simp only [worker_cycle, get_latest_substack_post_url, extract_text_from_url]
        at hc
      split_ifs at hc <;> simp_all [falsy]
    · simp only [worker_cycle, get_latest_substack_post_url, extract_text_from_url]
        at hc
      split_ifs at hc
  · simp [worker_cycle, get_latest_substack_post_url] at hc
  · simp [worker_cycle, get_latest_substack_post_url] at hc

/-- Witness for C3 at a concrete blocked cycle. -/
theorem summarize_blocked_isolated_witness :
    geminiBlocked envBlocked.gemini = true ∧
      (worker_cycle "post-1" "post-1" envBlocked).summarizeCalled = true ∧
      ((worker_cycle "post-1" "post-1" envBlocked).outcome = CycleOutcome.summarizeBlocked ∧
        (worker_cycle "post-1" "post-1" envBlocked).sendCalled = false ∧
        (worker_cycle "post-1" "post-1" envBlocked).last_processed = "post-1") :=
  ⟨rfl, rfl, summarize_blocked_isolated "post-1" "post-1" envBlocked rfl rfl⟩

end SubstackMonitor
